import Mathlib

/-!
# Verification of the drone_follow control and landing layer

Shallow embedding, in Lean 4, of the control laws
(`src/control_protocols/`) and landing strategies
(`src/landing_protocols/`) of the drone_follow repository, together with
theorems settling the specification claims about them.

Python floats are modelled as exact rationals `ℚ` (and as reals `ℝ` where
the source takes a square root); Python `int(x)` is truncation toward
zero; `np.clip(x, lo, hi)` is `min hi (max lo x)`; a Python call that can
raise (`ZeroDivisionError` in the PID derivative, a transport error from
an actuator call) is modelled with `Option` or an explicit behaviour
flag.
-/

namespace DroneFollow

/-- `np.clip(x, lo, hi)` on rationals: NumPy computes
`minimum(hi, maximum(lo, x))` (so for `lo > hi` the result is `hi`). -/
def clipQ (x lo hi : ℚ) : ℚ := min hi (max lo x)

/-- Python `int(x)`: truncation toward zero. -/
def pyInt (q : ℚ) : ℤ := if 0 ≤ q then ⌊q⌋ else ⌈q⌉

/-- Truncation toward zero stays inside a symmetric interval `[-v, v]`
around zero (`0 ≤ v`). -/
theorem pyInt_mem_of_mem {q v : ℚ} (hv : 0 ≤ v) (hlo : -v ≤ q) (hhi : q ≤ v) :
    -v ≤ (pyInt q : ℚ) ∧ (pyInt q : ℚ) ≤ v := by
  unfold pyInt
  by_cases h : 0 ≤ q
  · simp only [h, if_true]
    constructor
    · have : (0 : ℚ) ≤ (⌊q⌋ : ℚ) := by exact_mod_cast Int.floor_nonneg.mpr h
      linarith
    · exact le_trans (Int.floor_le q) hhi
  · simp only [h, if_false]
    push_neg at h
    constructor
    · exact le_trans hlo (Int.le_ceil q)
    · have hc : ⌈q⌉ ≤ (0 : ℤ) := Int.ceil_le.mpr (by exact_mod_cast h.le)
      have : ((⌈q⌉ : ℚ)) ≤ 0 := by exact_mod_cast hc
      linarith

/-- The result of `clipQ x (-v) v` lies in `[-v, v]` when `0 ≤ v`. -/
theorem clipQ_mem {x v : ℚ} (hv : 0 ≤ v) : -v ≤ clipQ x (-v) v ∧ clipQ x (-v) v ≤ v := by
  unfold clipQ
  constructor
  · exact le_min (by linarith) (le_max_left _ _)
  · exact min_le_left _ _

/-- An integer axis value lies in `[-v, v]` (compared after casting to `ℚ`). -/
def inRange (v : ℚ) (z : ℤ) : Prop := -v ≤ (z : ℚ) ∧ (z : ℚ) ≤ v

instance (v : ℚ) (z : ℤ) : Decidable (inRange v z) := by
  unfold inRange; infer_instance

/-- All four axes of a velocity command lie in `[-v, v]`. -/
def axes4InRange (v : ℚ) (t : ℤ × ℤ × ℤ × ℤ) : Prop :=
  inRange v t.1 ∧ inRange v t.2.1 ∧ inRange v t.2.2.1 ∧ inRange v t.2.2.2

instance (v : ℚ) (t : ℤ × ℤ × ℤ × ℤ) : Decidable (axes4InRange v t) := by
  unfold axes4InRange; infer_instance

theorem inRange_clip_pyInt {x v : ℚ} (hv : 0 ≤ v) : inRange v (pyInt (clipQ x (-v) v)) := by
  obtain ⟨h1, h2⟩ := clipQ_mem (x := x) hv
  exact pyInt_mem_of_mem hv h1 h2

theorem inRange_zero {v : ℚ} (hv : 0 ≤ v) : inRange v 0 := by
  constructor
  · simpa using neg_nonpos.mpr hv
  · simpa using hv

/-! ## Control laws (`src/control_protocols/`) -/

/-- Configuration of `ProportionalControl` (`proportional_control.py`,
constructor lines 5-7). -/
structure ProportionalControl where
  Kp : ℚ
  vmax : ℚ

/-- `ProportionalControl.compute_control` (`proportional_control.py`
lines 9-13):
`vx = int(np.clip(-Kp*err_y, -vmax, vmax))`,
`vy = int(np.clip(-Kp*err_x, -vmax, vmax))`, returns `(vy, vx, 0, 0)`.
The `dt` keyword, if passed, is swallowed by `**_` and ignored. -/
def ProportionalControl.compute_control (c : ProportionalControl) (err_x err_y : ℚ) :
    ℤ × ℤ × ℤ × ℤ :=
  let vx := pyInt (clipQ (-c.Kp * err_y) (-c.vmax) c.vmax)
  let vy := pyInt (clipQ (-c.Kp * err_x) (-c.vmax) c.vmax)
  (vy, vx, 0, 0)

/-- Configuration of `PIControl` (`pi_control.py` lines 5-7). -/
structure PIControl where
  Kp : ℚ
  Ki : ℚ
  vmax : ℚ

/-- Mutable accumulator state of `PIControl` (`int_x`, `int_y`),
initialised to 0 in the constructor. -/
structure PIState where
  int_x : ℚ
  int_y : ℚ
deriving DecidableEq

/-- `PIControl.compute_control` (`pi_control.py` lines 9-15):
unclamped integral accumulation `int += err*dt`, then
`vx = int(np.clip(-Kp*err_y - Ki*int_y, -vmax, vmax))`,
`vy = int(np.clip(-Kp*err_x - Ki*int_x, -vmax, vmax))`,
returns the new state and `(vy, vx, 0, 0)`. -/
def PIControl.compute_control (c : PIControl) (s : PIState) (err_x err_y dt : ℚ) :
    PIState × (ℤ × ℤ × ℤ × ℤ) :=
  let int_x := s.int_x + err_x * dt
  let int_y := s.int_y + err_y * dt
  let vx := pyInt (clipQ (-c.Kp * err_y - c.Ki * int_y) (-c.vmax) c.vmax)
  let vy := pyInt (clipQ (-c.Kp * err_x - c.Ki * int_x) (-c.vmax) c.vmax)
  (⟨int_x, int_y⟩, (vy, vx, 0, 0))

/-- Configuration of `PIDControl` (`pid_control.py` lines 7-13). -/
structure PIDControl where
  Kp : ℚ
  Ki : ℚ
  Kd : ℚ
  vmax : ℚ
  integral_limit : ℚ

/-- Mutable state of `PIDControl`: clamped integrals and previous-error
samples, all initialised to 0 in the constructor (lines 14-17). -/
structure PIDState where
  integral_x : ℚ
  integral_y : ℚ
  prev_error_x : ℚ
  prev_error_y : ℚ
deriving DecidableEq

/-- `PIDControl.compute_control` (`pid_control.py` lines 19-38).
The integral update with anti-windup clamp (lines 23-24) happens first;
the derivative `(err - prev_err)/dt` (lines 27-28) divides by `dt`, so a
call with `dt = 0` raises `ZeroDivisionError` in Python — modelled as
`none`.  Otherwise
`vx = int(np.clip(-Kp*err_y - Ki*integral_y - Kd*d_err_y, -vmax, vmax))`,
`vy = int(np.clip(-Kp*err_x - Ki*integral_x - Kd*d_err_x, -vmax, vmax))`,
`prev_error` is updated, and `(vy, vx, 0, 0)` is returned. -/
def PIDControl.compute_control (c : PIDControl) (s : PIDState) (err_x err_y dt : ℚ) :
    Option (PIDState × (ℤ × ℤ × ℤ × ℤ)) :=
  let integral_x := clipQ (s.integral_x + err_x * dt) (-c.integral_limit) c.integral_limit
  let integral_y := clipQ (s.integral_y + err_y * dt) (-c.integral_limit) c.integral_limit
  if dt = 0 then none
  else
    let d_err_x := (err_x - s.prev_error_x) / dt
    let d_err_y := (err_y - s.prev_error_y) / dt
    let vx := pyInt (clipQ (-c.Kp * err_y - c.Ki * integral_y - c.Kd * d_err_y) (-c.vmax) c.vmax)
    let vy := pyInt (clipQ (-c.Kp * err_x - c.Ki * integral_x - c.Kd * d_err_x) (-c.vmax) c.vmax)
    some (⟨integral_x, integral_y, err_x, err_y⟩, (vy, vx, 0, 0))

/-- Iterate `PIDControl.compute_control` over a list of
`(err_x, err_y, dt)` ticks, threading the state; a raising call makes the
whole run `none`. -/
def PIDControl.run (c : PIDControl) (s : PIDState) : List (ℚ × ℚ × ℚ) → Option PIDState
  | [] => some s
  | (ex, ey, dt) :: rest => do
      let (s', _) ← c.compute_control s ex ey dt
      c.run s' rest

/-- The clamp keeps a value inside `[-L, L]` in absolute-value form. -/
theorem abs_clipQ_le {x L : ℚ} (hL : 0 ≤ L) : |clipQ x (-L) L| ≤ L := by
  obtain ⟨h1, h2⟩ := clipQ_mem (x := x) hL
  exact abs_le.mpr ⟨h1, h2⟩

/-- Unfolding of `PIDControl.compute_control` on a non-zero `dt`. -/
theorem PIDControl.compute_control_eq (c : PIDControl) (s : PIDState) (err_x err_y dt : ℚ)
    (h : dt ≠ 0) :
    c.compute_control s err_x err_y dt =
      some (⟨clipQ (s.integral_x + err_x * dt) (-c.integral_limit) c.integral_limit,
             clipQ (s.integral_y + err_y * dt) (-c.integral_limit) c.integral_limit,
             err_x, err_y⟩,
        (pyInt (clipQ (-c.Kp * err_x -
            c.Ki * clipQ (s.integral_x + err_x * dt) (-c.integral_limit) c.integral_limit -
            c.Kd * ((err_x - s.prev_error_x) / dt)) (-c.vmax) c.vmax),
         pyInt (clipQ (-c.Kp * err_y -
            c.Ki * clipQ (s.integral_y + err_y * dt) (-c.integral_limit) c.integral_limit -
            c.Kd * ((err_y - s.prev_error_y) / dt)) (-c.vmax) c.vmax),
         0, 0)) := by
  simp [PIDControl.compute_control, h]

/-- `PIDControl.compute_control` at `dt = 0` models the
`ZeroDivisionError` of lines 27-28. -/
theorem PIDControl.compute_control_dt0 (c : PIDControl) (s : PIDState) (err_x err_y : ℚ) :
    c.compute_control s err_x err_y 0 = none := by
  simp [PIDControl.compute_control]

/-- A run whose every tick has a non-zero `dt` completes. -/
theorem PIDControl.run_isSome (c : PIDControl) (s : PIDState) (l : List (ℚ × ℚ × ℚ))
    (h : ∀ x ∈ l, x.2.2 ≠ (0 : ℚ)) : ∃ s', c.run s l = some s' := by
  induction l generalizing s with
  | nil => exact ⟨s, rfl⟩
  | cons x rest ih =>
      obtain ⟨ex, ey, dt⟩ := x
      have hdt : dt ≠ 0 := h (ex, ey, dt) (List.mem_cons_self _ _)
      obtain ⟨s', hs'⟩ := ih _ (fun y hy => h y (List.mem_cons_of_mem _ hy))
      refine ⟨s', ?_⟩
      simp only [PIDControl.run, c.compute_control_eq s ex ey dt hdt, Option.bind_eq_bind,
        Option.some_bind]
      exact hs'

/-- After any non-empty completed run both accumulated integrals respect
the anti-windup limit. -/
theorem PIDControl.run_integral_bounded (c : PIDControl) (hlim : 0 ≤ c.integral_limit)
    (s : PIDState) (l : List (ℚ × ℚ × ℚ)) (hne : l ≠ []) (s' : PIDState)
    (h : c.run s l = some s') :
    |s'.integral_x| ≤ c.integral_limit ∧ |s'.integral_y| ≤ c.integral_limit := by
  induction l generalizing s with
  | nil => exact absurd rfl hne
  | cons x rest ih =>
      obtain ⟨ex, ey, dt⟩ := x
      by_cases hdt : dt = 0
      · subst hdt
        simp [PIDControl.run, c.compute_control_dt0 s ex ey] at h
      · simp only [PIDControl.run, c.compute_control_eq s ex ey dt hdt, Option.bind_eq_bind,
          Option.some_bind] at h
        cases rest with
        | nil =>
            simp only [PIDControl.run, Option.some.injEq] at h
            subst h
            exact ⟨abs_clipQ_le hlim, abs_clipQ_le hlim⟩
        | cons y rest' => exact ih _ (by simp) h

/-! ## Precision landing state machine (`src/landing_protocols/precision_landing.py`) -/

/-- The four landing phases of `PrecisionLandingProtocol.current_phase`
(string-valued in the source: "SEARCH", "ALIGN", "APPROACH",
"TOUCHDOWN"). -/
inductive Phase
  | SEARCH
  | ALIGN
  | APPROACH
  | TOUCHDOWN
deriving DecidableEq, Repr

/-- The phase order SEARCH < ALIGN < APPROACH < TOUCHDOWN. -/
def Phase.rank : Phase → ℕ
  | .SEARCH => 0
  | .ALIGN => 1
  | .APPROACH => 2
  | .TOUCHDOWN => 3

/-- Constructor parameters of `PrecisionLandingProtocol` that the phase
transitions read (`precision_landing.py` lines 19-46). -/
structure PrecisionCfg where
  target_area_percentage : ℚ
  min_distance : ℚ
  alignment_threshold : ℚ
  position_threshold : ℚ
  detection_timeout : ℚ

/-- The mutable state the phase logic touches: `current_phase` and
`last_detection_time` (lines 43, 45; `last_detection_time` starts as
`None`). -/
structure PrecisionState where
  current_phase : Phase
  last_detection_time : Option ℚ
deriving DecidableEq

/-- One tick's tracker outcome, tagged with the wall-clock time `t` of
the tick: either a detection carrying the 5-value error data of the
precision tracker, or a miss. -/
inductive PrecisionObs
  | hit (t error_x error_y yaw_error distance area_percentage : ℚ)
  | miss (t : ℚ)
deriving DecidableEq

/-- Phase-transition part of
`PrecisionLandingProtocol._handle_target_detected`
(`precision_landing.py` lines 142-157): SEARCH→ALIGN unconditionally;
ALIGN→APPROACH when both position errors are below `position_threshold`
and the yaw error below `alignment_threshold`; APPROACH→TOUCHDOWN when
`area_percentage ≥ target_area_percentage` and
`distance ≤ min_distance`; TOUCHDOWN stays. -/
def handle_target_detected (c : PrecisionCfg) (p : Phase)
    (error_x error_y yaw_error distance area_percentage : ℚ) : Phase :=
  match p with
  | .SEARCH => .ALIGN
  | .ALIGN =>
      if |error_x| < c.position_threshold ∧ |error_y| < c.position_threshold ∧
          |yaw_error| < c.alignment_threshold
      then .APPROACH else .ALIGN
  | .APPROACH =>
      if c.target_area_percentage ≤ area_percentage ∧ distance ≤ c.min_distance
      then .TOUCHDOWN else .APPROACH
  | .TOUCHDOWN => .TOUCHDOWN

/-- Phase-transition part of `PrecisionLandingProtocol._handle_no_target`
(`precision_landing.py` lines 167-179): regress to SEARCH exactly when a
previous detection exists and `current_time - last_detection_time >
detection_timeout`. -/
def handle_no_target (c : PrecisionCfg) (s : PrecisionState) (t : ℚ) : Phase :=
  match s.last_detection_time with
  | none => s.current_phase
  | some t0 => if c.detection_timeout < t - t0 then .SEARCH else s.current_phase

/-- One iteration of the landing loop body (`precision_landing.py`
lines 101-105): on a hit, `last_detection_time` is set to the current
time and `_handle_target_detected` runs; on a miss `_handle_no_target`
runs and `last_detection_time` is unchanged. -/
def precisionStep (c : PrecisionCfg) (s : PrecisionState) : PrecisionObs → PrecisionState
  | .hit t ex ey yaw dist area =>
      { current_phase := handle_target_detected c s.current_phase ex ey yaw dist area
        last_detection_time := some t }
  | .miss t =>
      { current_phase := handle_no_target c s t
        last_detection_time := s.last_detection_time }

/-- Run the loop over a list of per-tick observations. -/
def precisionRun (c : PrecisionCfg) (s : PrecisionState) : List PrecisionObs → PrecisionState
  | [] => s
  | o :: rest => precisionRun c (precisionStep c s o) rest

/-- A miss tick at time `t` respects the detection timeout in state `s`:
either no detection has happened yet, or the gap since the last one is at
most `detection_timeout`.  Hit ticks always qualify. -/
def obsGapOk (c : PrecisionCfg) (s : PrecisionState) : PrecisionObs → Bool
  | .hit _ _ _ _ _ _ => true
  | .miss t =>
      match s.last_detection_time with
      | none => true
      | some t0 => decide (t - t0 ≤ c.detection_timeout)

/-- A whole observation sequence is gap-free from state `s`: every miss
happens within `detection_timeout` of the latest detection. -/
def gapFree (c : PrecisionCfg) (s : PrecisionState) : List PrecisionObs → Bool
  | [] => true
  | o :: rest => obsGapOk c s o && gapFree c (precisionStep c s o) rest

/-- The list of phases visited, starting with the initial state's. -/
def phaseTrace (c : PrecisionCfg) (s : PrecisionState) : List PrecisionObs → List Phase
  | [] => [s.current_phase]
  | o :: rest => s.current_phase :: phaseTrace c (precisionStep c s o) rest

theorem handle_target_detected_rank (c : PrecisionCfg) (p : Phase)
    (ex ey yaw dist area : ℚ) :
    p.rank ≤ (handle_target_detected c p ex ey yaw dist area).rank := by
  cases p <;> simp only [handle_target_detected] <;> (try split) <;> simp [Phase.rank]

theorem precisionStep_rank_mono (c : PrecisionCfg) (s : PrecisionState) (o : PrecisionObs)
    (h : obsGapOk c s o = true) :
    s.current_phase.rank ≤ (precisionStep c s o).current_phase.rank := by
  cases o with
  | hit t ex ey yaw dist area => exact handle_target_detected_rank c _ ex ey yaw dist area
  | miss t =>
      simp only [precisionStep, handle_no_target]
      cases hlast : s.last_detection_time with
      | none => simp
      | some t0 =>
          simp only [obsGapOk, hlast] at h
          have hle : t - t0 ≤ c.detection_timeout := of_decide_eq_true h
          simp [not_lt.mpr hle]

theorem phaseTrace_head (c : PrecisionCfg) (s : PrecisionState) (l : List PrecisionObs) :
    (phaseTrace c s l).head? = some s.current_phase := by
  cases l <;> rfl

/-- Along a gap-free observation sequence the visited phases are
non-decreasing in rank. -/
theorem precisionTrace_mono (c : PrecisionCfg) (s : PrecisionState) (obss : List PrecisionObs)
    (h : gapFree c s obss = true) :
    List.Chain' (fun a b => Phase.rank a ≤ Phase.rank b) (phaseTrace c s obss) := by
  induction obss generalizing s with
  | nil => simp [phaseTrace]
  | cons o rest ih =>
      simp only [gapFree, Bool.and_eq_true] at h
      simp only [phaseTrace]
      rw [List.chain'_cons']
      refine ⟨?_, ih _ h.2⟩
      intro y hy
      rw [phaseTrace_head] at hy
      simp only [Option.mem_def, Option.some.injEq] at hy
      subst hy
      exact precisionStep_rank_mono c s o h.1

/-! ## Actuator calls and the Simple landing
(`src/landing_protocols/simple_landing.py`) -/

/-- A call issued to the `tello` actuator (calls are recorded in issue
order; a call that raises is still recorded as issued). -/
inductive TelloCall
  | sendRc (lr fb ud yaw : ℤ)
  | land
  | moveDown (cm : ℤ)
deriving DecidableEq, Repr

/-- Whether each kind of actuator call raises a transport error when
issued (`true` = succeeds). -/
structure TelloBehavior where
  sendRcOk : Bool
  landOk : Bool
  /-- `tello.get_height()` result in cm; `none` = the call raises. -/
  height : Option ℚ
  /-- `tello.get_distance_tof()` result in mm; `none` = the call raises. -/
  tof : Option ℚ
  moveOk : Bool
deriving DecidableEq

/-- Result of running a landing method against a `TelloBehavior`:
the calls issued, the final value of the `finished` attribute (`none` if
it was never assigned), and whether an exception escaped the method. -/
structure LandResult where
  calls : List TelloCall
  finished : Option Bool
  propagates : Bool
deriving DecidableEq, Repr

/-- `SimpleLanding.land` (`simple_landing.py` lines 9-23): inside a
`try`, `send_rc_control(0,0,0,0)` then `land()`; on any exception, a
fallback `land()` under a bare `except: pass`.  No branch assigns
`self.finished`, and every actuator call sits under a handler, so no
exception escapes. -/
def SimpleLanding.land (b : TelloBehavior) : LandResult :=
  if b.sendRcOk then
    if b.landOk then
      { calls := [.sendRc 0 0 0 0, .land], finished := none, propagates := false }
    else
      -- `tello.land()` raised; the except block retries `land()` and
      -- swallows any second failure.
      { calls := [.sendRc 0 0 0 0, .land, .land], finished := none, propagates := false }
  else
    -- `send_rc_control` raised; the except block attempts `land()`.
    if b.landOk then
      { calls := [.sendRc 0 0 0 0, .land], finished := none, propagates := false }
    else
      { calls := [.sendRc 0 0 0 0, .land], finished := none, propagates := false }

/-! ## Multi-layer landing (`src/landing_protocols/multilayer_landing.py`) -/

/-- Outcome of one `_descend_layer` call: calls issued by this step,
whether `self.finished` was set to `True` inside the step, and whether an
exception escaped the method. -/
structure DescendResult where
  calls : List TelloCall
  finishedSet : Bool
  propagates : Bool
deriving DecidableEq, Repr

/-- The altitude reading of `_descend_layer` lines 51-58: primary
`tello.get_height()` (cm); on an exception, fallback
`tello.get_distance_tof() / 10.0`; if both raise, `None`. -/
def currentHeight (b : TelloBehavior) : Option ℚ :=
  match b.height with
  | some h => some h
  | none =>
      match b.tof with
      | some t => some (t / 10)
      | none => none

/-- `MultiLayerLanding._descend_layer` (`multilayer_landing.py`
lines 46-81).  The opening `send_rc_control(0,0,0,0)` (line 47) is
OUTSIDE the `try` that starts at line 49, so a transport error there
escapes the method.  Inside the `try`: read the altitude (with the TOF
fallback); if it is known and `≤ layer_height + 15`, issue `land()`, set
`finished`, return; otherwise `is_stable_imu` (always `True`, lines
141-144) gates `move("down", layer_height)`.  Any exception inside the
`try` is caught at line 75 and answered with a best-effort `land()`
whose own failure is also swallowed. -/
def MultiLayerLanding.descend_layer (layer_height : ℚ) (b : TelloBehavior) : DescendResult :=
  if b.sendRcOk then
    match currentHeight b with
    | some h =>
        if h ≤ layer_height + 15 then
          if b.landOk then
            { calls := [.sendRc 0 0 0 0, .land], finishedSet := true, propagates := false }
          else
            -- `land()` raised before `self.finished = True` ran; the
            -- handler at line 75 retries `land()` and swallows failure.
            { calls := [.sendRc 0 0 0 0, .land, .land], finishedSet := false,
              propagates := false }
        else
          if b.moveOk then
            { calls := [.sendRc 0 0 0 0, .moveDown (pyInt layer_height)],
              finishedSet := false, propagates := false }
          else
            { calls := [.sendRc 0 0 0 0, .moveDown (pyInt layer_height), .land],
              finishedSet := false, propagates := false }
    | none =>
        -- Altitude unknown: the safety check is skipped and the
        -- (always-true) IMU gate admits the descent move.
        if b.moveOk then
          { calls := [.sendRc 0 0 0 0, .moveDown (pyInt layer_height)],
            finishedSet := false, propagates := false }
        else
          { calls := [.sendRc 0 0 0 0, .moveDown (pyInt layer_height), .land],
            finishedSet := false, propagates := false }
  else
    -- `send_rc_control(0,0,0,0)` at line 47 raised; it is outside the
    -- `try` block, so the exception escapes `_descend_layer`.
    { calls := [.sendRc 0 0 0 0], finishedSet := false, propagates := true }

/-- The layer loop of `MultiLayerLanding.land` (`multilayer_landing.py`
lines 36-44) in the configuration where no tracker/control stack is
available (`frame_read is None`), so `_align_on_pad` takes its line
91-94 path: it sleeps and returns `True` without touching the actuator.
Each iteration runs `_descend_layer` with the tello behaviour `bs i`; an
exception escaping `_descend_layer` escapes `land` (the loop body has no
handler), leaving `finished` as last assigned.  After the loop, the
final `land()` (lines 40-43) is issued under its own handler, and
`finished` is set to `True`. -/
def MultiLayerLanding.landLoop (layer_height : ℚ) (bs : ℕ → TelloBehavior)
    (i remaining : ℕ) (acc : List TelloCall) (finished : Bool) : LandResult :=
  match remaining with
  | 0 =>
      -- `tello.land()` at line 41; a failure is logged and swallowed,
      -- then `self.finished = True` at line 44.
      { calls := acc ++ [.land], finished := some true, propagates := false }
  | remaining + 1 =>
      let d := MultiLayerLanding.descend_layer layer_height (bs i)
      if d.propagates then
        { calls := acc ++ d.calls, finished := some finished, propagates := true }
      else
        MultiLayerLanding.landLoop layer_height bs (i + 1) remaining (acc ++ d.calls)
          (finished || d.finishedSet)

/-- Entry point: `self.finished = False` (line 31), then the layer loop,
then the final `land()` and `self.finished = True`. -/
def MultiLayerLanding.landNoTracker (layers : ℕ) (layer_height : ℚ)
    (bs : ℕ → TelloBehavior) : LandResult :=
  MultiLayerLanding.landLoop layer_height bs 0 layers [] false

/-! ## Continuous glide landing
(`src/landing_protocols/continuous_glide_landing.py`)

The descent-speed computation takes `np.hypot`, a square root, so this
part of the embedding lives in `ℝ`. -/

/-- Python `int(x)` on a real: truncation toward zero. -/
noncomputable def pyIntR (x : ℝ) : ℤ := if 0 ≤ x then ⌊x⌋ else ⌈x⌉

/-- The `min_vz`/`max_vz` configuration of `ContinuousGlideLanding`
(`continuous_glide_landing.py` lines 60-77); the remaining constructor
parameters do not enter the descent-speed computation. -/
structure GlideCfg where
  min_vz : ℤ
  max_vz : ℤ

/-- The last two lines of `_compute_descent_speed` applied to an already
normalised alignment factor:
`desired_speed = min_vz + (max_vz - min_vz) * normalised` followed by
`return -int(desired_speed)` (lines 95-96). -/
noncomputable def descentFromNormalised (c : GlideCfg) (normalised : ℝ) : ℤ :=
  -(pyIntR ((c.min_vz : ℝ) + ((c.max_vz : ℝ) - (c.min_vz : ℝ)) * normalised))

/-- `ContinuousGlideLanding._compute_descent_speed` (lines 79-96):
`mag = np.hypot(dx, dy)`; `normalised = max(0.0, 1.0 - mag/100.0)`;
then interpolate and negate. -/
noncomputable def ContinuousGlideLanding.compute_descent_speed (c : GlideCfg) (dx dy : ℝ) : ℤ :=
  descentFromNormalised c (max 0 (1 - Real.sqrt (dx ^ 2 + dy ^ 2) / 100))

/-- One frame-available iteration of the `ContinuousGlideLanding.land`
loop body (lines 122-131).  `ctrl` stands for
`self.control_protocol.compute_control`.  The code computes
`rc = ctrl(error)` when the target is found, else `rc = (0,0,0,0)`; the
vertical speed is `_compute_descent_speed(error[:2])` when found, else
`_compute_descent_speed((np.inf, np.inf))` — in IEEE arithmetic
`np.hypot(inf, inf) = inf` and `max(0.0, 1.0 - inf/100.0) = 0.0`, so the
lost-target branch evaluates the speed at `normalised = 0`.  The command
sent is `(lr, fb, vz, yaw)` with `(lr, fb, _, yaw) = rc`. -/
noncomputable def glideTickCommand (c : GlideCfg) (ctrl : ℝ → ℝ → ℤ × ℤ × ℤ × ℤ)
    (found : Bool) (err_x err_y : ℝ) : ℤ × ℤ × ℤ × ℤ :=
  let rc := if found then ctrl err_x err_y else (0, 0, 0, 0)
  let vz := if found then ContinuousGlideLanding.compute_descent_speed c err_x err_y
            else descentFromNormalised c 0
  (rc.1, rc.2.1, vz, rc.2.2.2)

theorem pyIntR_intCast (z : ℤ) : pyIntR (z : ℝ) = z := by
  unfold pyIntR
  split <;> simp

/-- At `normalised = 0` the interpolation returns exactly `-min_vz`. -/
theorem descentFromNormalised_zero (c : GlideCfg) : descentFromNormalised c 0 = -c.min_vz := by
  unfold descentFromNormalised
  rw [mul_zero, add_zero, pyIntR_intCast]

/-- At `normalised = 1` the interpolation returns exactly `-max_vz`. -/
theorem descentFromNormalised_one (c : GlideCfg) : descentFromNormalised c 1 = -c.max_vz := by
  unfold descentFromNormalised
  rw [mul_one]
  rw [show (c.min_vz : ℝ) + ((c.max_vz : ℝ) - (c.min_vz : ℝ)) = ((c.max_vz : ℤ) : ℝ) by ring]
  rw [pyIntR_intCast]

/-- `pyIntR` is a monotone function. -/
theorem pyIntR_mono {x y : ℝ} (h : x ≤ y) : pyIntR x ≤ pyIntR y := by
  unfold pyIntR
  by_cases hx : 0 ≤ x
  · have hy : 0 ≤ y := le_trans hx h
    simp only [hx, hy, if_true]
    exact Int.floor_le_floor h
  · by_cases hy : 0 ≤ y
    · simp only [hx, hy, if_true, if_false]
      push_neg at hx
      calc ⌈x⌉ ≤ 0 := Int.ceil_le.mpr (by exact_mod_cast hx.le)
        _ ≤ ⌊y⌋ := Int.floor_nonneg.mpr hy
    · simp only [hx, hy, if_false]
      exact Int.ceil_le_ceil h

/-- Bounds for the interpolated descent speed: with
`0 ≤ min_vz ≤ max_vz` and `normalised ∈ [0, 1]`, the result lies in
`[-max_vz, -min_vz]`. -/
theorem descentFromNormalised_bounds (c : GlideCfg) (hmin : 0 ≤ c.min_vz)
    (hle : c.min_vz ≤ c.max_vz) {n : ℝ} (h0 : 0 ≤ n) (h1 : n ≤ 1) :
    -c.max_vz ≤ descentFromNormalised c n ∧ descentFromNormalised c n ≤ -c.min_vz := by
  unfold descentFromNormalised
  have hspan : (0 : ℝ) ≤ (c.max_vz : ℝ) - (c.min_vz : ℝ) := by
    have : (c.min_vz : ℝ) ≤ (c.max_vz : ℝ) := by exact_mod_cast hle
    linarith
  set d : ℝ := (c.min_vz : ℝ) + ((c.max_vz : ℝ) - (c.min_vz : ℝ)) * n with hd
  have hdlo : (c.min_vz : ℝ) ≤ d := by
    have := mul_nonneg hspan h0
    simp only [hd]; linarith
  have hdhi : d ≤ (c.max_vz : ℝ) := by
    have hmn : ((c.max_vz : ℝ) - (c.min_vz : ℝ)) * n ≤ ((c.max_vz : ℝ) - (c.min_vz : ℝ)) * 1 :=
      mul_le_mul_of_nonneg_left h1 hspan
    simp only [hd]; linarith
  have hd0 : (0 : ℝ) ≤ d := le_trans (by exact_mod_cast hmin) hdlo
  have hfloor : pyIntR d = ⌊d⌋ := by unfold pyIntR; simp [hd0]
  constructor
  · have : pyIntR d ≤ c.max_vz := by
      rw [hfloor]
      calc ⌊d⌋ ≤ ⌊(c.max_vz : ℝ)⌋ := Int.floor_le_floor hdhi
        _ = c.max_vz := Int.floor_intCast _
    omega
  · have : c.min_vz ≤ pyIntR d := by
      rw [hfloor]
      exact Int.le_floor.mpr hdlo
    omega

/-- `descentFromNormalised` is antitone in the alignment factor. -/
theorem descentFromNormalised_antitone (c : GlideCfg) (hle : c.min_vz ≤ c.max_vz)
    {n m : ℝ} (h : n ≤ m) :
    descentFromNormalised c m ≤ descentFromNormalised c n := by
  unfold descentFromNormalised
  have hspan : (0 : ℝ) ≤ (c.max_vz : ℝ) - (c.min_vz : ℝ) := by
    have : (c.min_vz : ℝ) ≤ (c.max_vz : ℝ) := by exact_mod_cast hle
    linarith
  have hmono : (c.min_vz : ℝ) + ((c.max_vz : ℝ) - (c.min_vz : ℝ)) * n ≤
      (c.min_vz : ℝ) + ((c.max_vz : ℝ) - (c.min_vz : ℝ)) * m := by
    have := mul_le_mul_of_nonneg_left h hspan
    linarith
  exact neg_le_neg (pyIntR_mono hmono)

/-! ## Claims -/

/-- C1: for every control law (Proportional, PI, PID) and every finite
error input, each of the four axes of the tuple returned by
`compute_control` is an integer in `[-vmax, vmax]`, where `vmax ≥ 0` is
the instance's configured maximum (for PID this covers every call that
returns, i.e. every `dt ≠ 0`). -/
theorem C1_control_output_bounded (Kp Ki Kd vmax ilim : ℚ) (hv : 0 ≤ vmax) :
    (∀ err_x err_y : ℚ,
      axes4InRange vmax (ProportionalControl.compute_control ⟨Kp, vmax⟩ err_x err_y)) ∧
    (∀ (s : PIState) (err_x err_y dt : ℚ),
      axes4InRange vmax ((PIControl.compute_control ⟨Kp, Ki, vmax⟩ s err_x err_y dt).2)) ∧
    (∀ (s : PIDState) (err_x err_y dt : ℚ) (s' : PIDState) (out : ℤ × ℤ × ℤ × ℤ),
      PIDControl.compute_control ⟨Kp, Ki, Kd, vmax, ilim⟩ s err_x err_y dt = some (s', out) →
      axes4InRange vmax out) := by
  refine ⟨?_, ?_, ?_⟩
  · intro ex ey
    exact ⟨inRange_clip_pyInt hv, inRange_clip_pyInt hv, inRange_zero hv, inRange_zero hv⟩
  · intro s ex ey dt
    exact ⟨inRange_clip_pyInt hv, inRange_clip_pyInt hv, inRange_zero hv, inRange_zero hv⟩
  · intro s ex ey dt s' out h
    by_cases hdt : dt = 0
    · subst hdt
      rw [PIDControl.compute_control_dt0] at h
      exact absurd h (by simp)
    · rw [PIDControl.compute_control_eq _ _ _ _ _ hdt] at h
      simp only [Option.some.injEq, Prod.mk.injEq] at h
      obtain ⟨-, hout⟩ := h
      subst hout
      exact ⟨inRange_clip_pyInt hv, inRange_clip_pyInt hv, inRange_zero hv, inRange_zero hv⟩

theorem C1_control_output_bounded_witness :
    (0 : ℚ) ≤ 25 ∧
    axes4InRange 25 (ProportionalControl.compute_control ⟨1, 25⟩ 3 4) :=
  ⟨by norm_num, (C1_control_output_bounded 1 1 1 25 10 (by norm_num)).1 3 4⟩

/-- C2 counterexample: the claim puts `clip(-Kp·err_y)` in the FIRST
(lateral) element, but the code returns `(vy, vx, 0, 0)` with
`vy = int(np.clip(-Kp*err_x, ...))`: for `Kp = 1`, `vmax = 25` and error
`(-10, 0)` the first returned element is `10`, while the claimed formula
for it evaluates to `0`. -/
theorem C2_axis_mixing_counterexample :
    (ProportionalControl.compute_control ⟨1, 25⟩ (-10) 0).1 = 10 ∧
    pyInt (clipQ (-(1 : ℚ) * 0) (-25) 25) = 0 ∧ ((10 : ℤ) ≠ 0) := by
  refine ⟨?_, ?_, by decide⟩
  · show pyInt (clipQ (-(1 : ℚ) * (-10)) (-25) 25) = 10
    norm_num [pyInt, clipQ]
  · norm_num [pyInt, clipQ]

/-- C2 amended: for every control law, the FIRST element of the returned
tuple is the clipped `err_x`-driven term (plus the integral/derivative
terms in `err_x` for PI/PID), the SECOND element is the corresponding
function of `err_y`, and the third and fourth elements are always 0. -/
theorem C2_axis_mixing (Kp Ki Kd vmax ilim : ℚ) :
    (∀ err_x err_y : ℚ,
      ProportionalControl.compute_control ⟨Kp, vmax⟩ err_x err_y =
        (pyInt (clipQ (-Kp * err_x) (-vmax) vmax),
         pyInt (clipQ (-Kp * err_y) (-vmax) vmax), 0, 0)) ∧
    (∀ (s : PIState) (err_x err_y dt : ℚ),
      (PIControl.compute_control ⟨Kp, Ki, vmax⟩ s err_x err_y dt).2 =
        (pyInt (clipQ (-Kp * err_x - Ki * (s.int_x + err_x * dt)) (-vmax) vmax),
         pyInt (clipQ (-Kp * err_y - Ki * (s.int_y + err_y * dt)) (-vmax) vmax), 0, 0)) ∧
    (∀ (s : PIDState) (err_x err_y dt : ℚ), dt ≠ 0 →
      (PIDControl.compute_control ⟨Kp, Ki, Kd, vmax, ilim⟩ s err_x err_y dt).map Prod.snd =
        some (pyInt (clipQ (-Kp * err_x - Ki * clipQ (s.integral_x + err_x * dt) (-ilim) ilim -
                  Kd * ((err_x - s.prev_error_x) / dt)) (-vmax) vmax),
              pyInt (clipQ (-Kp * err_y - Ki * clipQ (s.integral_y + err_y * dt) (-ilim) ilim -
                  Kd * ((err_y - s.prev_error_y) / dt)) (-vmax) vmax), 0, 0)) := by
  refine ⟨fun ex ey => rfl, fun s ex ey dt => rfl, ?_⟩
  intro s ex ey dt hdt
  rw [PIDControl.compute_control_eq _ _ _ _ _ hdt]
  rfl

theorem C2_axis_mixing_witness :
    (PIDControl.compute_control ⟨1, 1, 1, 25, 10⟩ ⟨0, 0, 0, 0⟩ 3 4 (7/100)).map Prod.snd =
      some (pyInt (clipQ (-(1 : ℚ) * 3 - 1 * clipQ ((0 : ℚ) + 3 * (7/100)) (-10) 10 -
                1 * ((3 - 0) / (7/100))) (-25) 25),
            pyInt (clipQ (-(1 : ℚ) * 4 - 1 * clipQ ((0 : ℚ) + 4 * (7/100)) (-10) 10 -
                1 * ((4 - 0) / (7/100))) (-25) 25), 0, 0) :=
  (C2_axis_mixing 1 1 1 25 10).2.2 ⟨0, 0, 0, 0⟩ 3 4 (7/100) (by norm_num)

/-- C3: after every returning PID call both accumulated integrals
satisfy `|integral| ≤ integral_limit` (for `integral_limit ≥ 0`), and in
the concrete scenario `Kp=1, Ki=1, Kd=0, vmax=100, integral_limit=10`
with constant error `(50, 50)` for 100 ticks at `dt = 0.1` the run
completes with `|integral_x| ≤ 10` and `|integral_y| ≤ 10`. -/
theorem C3_pid_antiwindup (c : PIDControl) (hlim : 0 ≤ c.integral_limit) :
    (∀ (s : PIDState) (err_x err_y dt : ℚ) (s' : PIDState) (out : ℤ × ℤ × ℤ × ℤ),
      c.compute_control s err_x err_y dt = some (s', out) →
      |s'.integral_x| ≤ c.integral_limit ∧ |s'.integral_y| ≤ c.integral_limit) ∧
    (∃ s : PIDState,
      PIDControl.run ⟨1, 1, 0, 100, 10⟩ ⟨0, 0, 0, 0⟩ (List.replicate 100 (50, 50, 1/10)) =
        some s ∧ |s.integral_x| ≤ 10 ∧ |s.integral_y| ≤ 10) := by
  constructor
  · intro s ex ey dt s' out h
    by_cases hdt : dt = 0
    · subst hdt
      rw [PIDControl.compute_control_dt0] at h
      exact absurd h (by simp)
    · rw [PIDControl.compute_control_eq _ _ _ _ _ hdt] at h
      simp only [Option.some.injEq, Prod.mk.injEq] at h
      obtain ⟨hs, -⟩ := h
      subst hs
      exact ⟨abs_clipQ_le hlim, abs_clipQ_le hlim⟩
  · have hdts : ∀ x ∈ List.replicate 100 ((50 : ℚ), (50 : ℚ), (1/10 : ℚ)), x.2.2 ≠ (0 : ℚ) := by
      intro x hx
      rw [List.eq_of_mem_replicate hx]
      norm_num
    obtain ⟨s', hs'⟩ := PIDControl.run_isSome ⟨1, 1, 0, 100, 10⟩ ⟨0, 0, 0, 0⟩ _ hdts
    refine ⟨s', hs', ?_⟩
    exact PIDControl.run_integral_bounded ⟨1, 1, 0, 100, 10⟩ (by norm_num) _ _ (by simp) _ hs'

theorem C3_pid_antiwindup_witness :
    (0 : ℚ) ≤ (PIDControl.mk 1 1 0 100 10).integral_limit ∧
    (∃ s : PIDState,
      PIDControl.run ⟨1, 1, 0, 100, 10⟩ ⟨0, 0, 0, 0⟩ (List.replicate 100 (50, 50, 1/10)) =
        some s ∧ |s.integral_x| ≤ 10 ∧ |s.integral_y| ≤ 10) :=
  ⟨by norm_num, (C3_pid_antiwindup ⟨1, 1, 0, 100, 10⟩ (by norm_num)).2⟩

/-- C10 counterexample: `PIDControl.compute_control` at `dt = 0` divides
by `dt` (lines 27-28 of `pid_control.py`) and raises
`ZeroDivisionError`, i.e. returns no value; totality "including dt = 0"
fails. -/
theorem C10_totality_counterexample :
    PIDControl.compute_control ⟨1, 1, 0, 100, 10⟩ ⟨0, 0, 0, 0⟩ 50 50 0 = none :=
  PIDControl.compute_control_dt0 _ _ _ _

/-- C10 amended: Proportional and PI `compute_control` are total on all
finite inputs (they are plain functions in the embedding); PID
`compute_control` returns a value exactly when `dt ≠ 0`, and raises
`ZeroDivisionError` at `dt = 0`. -/
theorem C10_totality (c : PIDControl) :
    ∀ (s : PIDState) (err_x err_y dt : ℚ),
      (c.compute_control s err_x err_y dt).isSome = true ↔ dt ≠ 0 := by
  intro s ex ey dt
  by_cases hdt : dt = 0
  · subst hdt
    rw [PIDControl.compute_control_dt0]
    simp
  · rw [PIDControl.compute_control_eq _ _ _ _ _ hdt]
    simp [hdt]

/-- C4: over any tick sequence without a detection gap exceeding
`detection_timeout`, the precision-landing phase sequence is
non-decreasing in SEARCH < ALIGN < APPROACH < TOUCHDOWN; moreover
SEARCH→ALIGN fires on any detection, ALIGN→APPROACH exactly when the
position and yaw thresholds are met, APPROACH→TOUCHDOWN exactly when
the area and distance thresholds are met, and a phase change on a miss
tick is a regression to SEARCH that happens only when the gap since the
last detection exceeds `detection_timeout`. -/
theorem C4_phase_monotone (c : PrecisionCfg) :
    (∀ (s : PrecisionState) (obss : List PrecisionObs), gapFree c s obss = true →
      List.Chain' (fun a b => Phase.rank a ≤ Phase.rank b) (phaseTrace c s obss)) ∧
    (∀ ex ey yaw dist area : ℚ,
      handle_target_detected c .SEARCH ex ey yaw dist area = .ALIGN) ∧
    (∀ ex ey yaw dist area : ℚ,
      handle_target_detected c .ALIGN ex ey yaw dist area = .APPROACH ↔
        |ex| < c.position_threshold ∧ |ey| < c.position_threshold ∧
          |yaw| < c.alignment_threshold) ∧
    (∀ ex ey yaw dist area : ℚ,
      handle_target_detected c .APPROACH ex ey yaw dist area = .TOUCHDOWN ↔
        c.target_area_percentage ≤ area ∧ dist ≤ c.min_distance) ∧
    (∀ (s : PrecisionState) (t : ℚ),
      (precisionStep c s (.miss t)).current_phase ≠ s.current_phase →
      (precisionStep c s (.miss t)).current_phase = .SEARCH ∧
      ∃ t0, s.last_detection_time = some t0 ∧ c.detection_timeout < t - t0) := by
  refine ⟨precisionTrace_mono c, fun _ _ _ _ _ => rfl, ?_, ?_, ?_⟩
  · intro ex ey yaw dist area
    simp only [handle_target_detected]
    split <;> simp_all
  · intro ex ey yaw dist area
    simp only [handle_target_detected]
    split <;> simp_all
  · intro s t hne
    simp only [precisionStep, handle_no_target] at hne ⊢
    cases hlast : s.last_detection_time with
    | none => simp [hlast] at hne
    | some t0 =>
        simp only [hlast] at hne ⊢
        by_cases hgap : c.detection_timeout < t - t0
        · exact ⟨by simp [hgap], t0, rfl, hgap⟩
        · simp [hgap] at hne

theorem C4_phase_monotone_witness :
    gapFree ⟨15, 20, 5, 10, 2⟩ ⟨.SEARCH, none⟩
        [.hit 0 0 0 0 100 5, .miss 1, .hit 3 50 0 0 100 5] = true ∧
    List.Chain' (fun a b => Phase.rank a ≤ Phase.rank b)
      (phaseTrace ⟨15, 20, 5, 10, 2⟩ ⟨.SEARCH, none⟩
        [.hit 0 0 0 0 100 5, .miss 1, .hit 3 50 0 0 100 5]) := by
  have hgap : gapFree ⟨15, 20, 5, 10, 2⟩ ⟨.SEARCH, none⟩
      [.hit 0 0 0 0 100 5, .miss 1, .hit 3 50 0 0 100 5] = true := by
    norm_num [gapFree, obsGapOk, precisionStep, handle_target_detected, handle_no_target]
  exact ⟨hgap, (C4_phase_monotone ⟨15, 20, 5, 10, 2⟩).1 _ _ hgap⟩

/-- C5: whenever the multi-layer descent step reads an altitude (primary
`get_height`, fallback `get_distance_tof / 10`) that is at most
`layer_height + 15` and the actuator's `land()` succeeds, the step
issues exactly `send_rc_control(0,0,0,0)` followed by `land()`, sets the
finished flag, and issues no `move(down, ·)`. -/
theorem C5_multilayer_direct_land (layer_height : ℚ) (b : TelloBehavior) (h : ℚ)
    (hsend : b.sendRcOk = true) (hland : b.landOk = true)
    (hh : currentHeight b = some h) (hlow : h ≤ layer_height + 15) :
    MultiLayerLanding.descend_layer layer_height b =
      ⟨[.sendRc 0 0 0 0, .land], true, false⟩ ∧
    ∀ cm : ℤ, TelloCall.moveDown cm ∉
      (MultiLayerLanding.descend_layer layer_height b).calls := by
  have hres : MultiLayerLanding.descend_layer layer_height b =
      ⟨[.sendRc 0 0 0 0, .land], true, false⟩ := by
    unfold MultiLayerLanding.descend_layer
    rw [hsend, hh]
    simp [hlow, hland]
  refine ⟨hres, ?_⟩
  intro cm
  rw [hres]
  simp

theorem C5_multilayer_direct_land_witness :
    MultiLayerLanding.descend_layer 20 ⟨true, true, some 30, some 300, true⟩ =
      ⟨[.sendRc 0 0 0 0, .land], true, false⟩ :=
  (C5_multilayer_direct_land 20 ⟨true, true, some 30, some 300, true⟩ 30
    rfl rfl rfl (by norm_num)).1

/-- C8 counterexample: on a fault-free actuator, `SimpleLanding.land`
issues `send_rc_control(0,0,0,0)` then `land()`, but never assigns the
`finished` attribute (no line of `simple_landing.py` writes it; `main.py`
line 191 compensates with `getattr(..., "finished", True)`), so
"finished becomes true" fails. -/
theorem C8_simple_landing_counterexample :
    (SimpleLanding.land ⟨true, true, some 100, some 1000, true⟩).calls =
      [.sendRc 0 0 0 0, .land] ∧
    (SimpleLanding.land ⟨true, true, some 100, some 1000, true⟩).finished ≠ some true := by
  constructor <;> simp [SimpleLanding.land]

/-- C8 amended: on an actuator whose `send_rc_control` and `land`
succeed, `SimpleLanding.land` issues exactly one
`send_rc_control(0,0,0,0)` followed by exactly one `land()` and returns
without propagating; it never assigns a `finished` flag (callers treat
the missing attribute as finished). -/
theorem C8_simple_landing (b : TelloBehavior) (hsend : b.sendRcOk = true)
    (hland : b.landOk = true) :
    SimpleLanding.land b = ⟨[.sendRc 0 0 0 0, .land], none, false⟩ := by
  simp [SimpleLanding.land, hsend, hland]

theorem C8_simple_landing_witness :
    SimpleLanding.land ⟨true, true, some 100, some 1000, true⟩ =
      ⟨[.sendRc 0 0 0 0, .land], none, false⟩ :=
  C8_simple_landing ⟨true, true, some 100, some 1000, true⟩ rfl rfl

/-- C9 counterexample: `MultiLayerLanding.land`'s descent step issues
`send_rc_control(0,0,0,0)` outside any `try` (line 47 of
`multilayer_landing.py`, while the `try` begins at line 49), so a
transport error there escapes `land()`: with one layer and an actuator
whose `send_rc_control` raises, the exception propagates and no `land()`
call is ever attempted. -/
theorem C9_exception_propagation_counterexample :
    (MultiLayerLanding.landNoTracker 1 20 (fun _ => ⟨false, true, some 100, some 1000, true⟩)).propagates = true ∧
    TelloCall.land ∉
      (MultiLayerLanding.landNoTracker 1 20 (fun _ => ⟨false, true, some 100, some 1000, true⟩)).calls := by
  have hres : MultiLayerLanding.landNoTracker 1 20
      (fun _ => ⟨false, true, some 100, some 1000, true⟩) =
      ⟨[.sendRc 0 0 0 0], some false, true⟩ := by
    unfold MultiLayerLanding.landNoTracker MultiLayerLanding.landLoop
    simp [MultiLayerLanding.descend_layer]
  rw [hres]
  constructor
  · rfl
  · simp

/-- C9 amended: `SimpleLanding.land` never propagates an actuator
exception (every actuator call sits under a handler that logs and
attempts a direct `land()`); `MultiLayerLanding.land` does not propagate
as long as no `send_rc_control` raises — only the unprotected
`send_rc_control` preamble of the descent step can let an exception
escape. -/
theorem C9_exception_containment :
    (∀ b : TelloBehavior, (SimpleLanding.land b).propagates = false) ∧
    (∀ (layers : ℕ) (layer_height : ℚ) (bs : ℕ → TelloBehavior),
      (∀ i, (bs i).sendRcOk = true) →
      (MultiLayerLanding.landNoTracker layers layer_height bs).propagates = false) := by
  constructor
  · intro b
    unfold SimpleLanding.land
    split <;> split <;> rfl
  · intro layers layer_height bs hsend
    have hdesc : ∀ i, (MultiLayerLanding.descend_layer layer_height (bs i)).propagates = false := by
      intro i
      unfold MultiLayerLanding.descend_layer
      rw [hsend i, if_pos rfl]
      split
      · split
        · split <;> rfl
        · split <;> rfl
      · split <;> rfl
    suffices hgo : ∀ (remaining i : ℕ) (acc : List TelloCall) (fin : Bool),
        (MultiLayerLanding.landLoop layer_height bs i remaining acc fin).propagates =
          false by
      exact hgo layers 0 [] false
    intro remaining
    induction remaining with
    | zero => intro i acc fin; rfl
    | succ n ih =>
        intro i acc fin
        unfold MultiLayerLanding.landLoop
        rw [if_neg (by rw [hdesc i]; exact Bool.false_ne_true)]
        exact ih _ _ _

theorem C9_exception_containment_witness :
    (MultiLayerLanding.landNoTracker 1 20 (fun _ => ⟨true, true, some 100, some 1000, true⟩)).propagates = false :=
  C9_exception_containment.2 1 20 (fun _ => ⟨true, true, some 100, some 1000, true⟩)
    (fun _ => rfl)

/-- C6: for `0 ≤ min_vz ≤ max_vz` the continuous-glide vertical speed
equals `-(min_vz + (max_vz - min_vz) * max(0, 1 - |error|/100))`
truncated to an integer; it always lies in `[-max_vz, -min_vz]`; larger
error magnitude never increases the descent rate; error `(0,0)` yields
`-max_vz`; and any error of squared magnitude at least `100²` (e.g.
`(150,150)`) yields `-min_vz`. -/
theorem C6_descent_speed (c : GlideCfg) (hmin : 0 ≤ c.min_vz) (hle : c.min_vz ≤ c.max_vz) :
    (∀ dx dy : ℝ, ContinuousGlideLanding.compute_descent_speed c dx dy =
      -(pyIntR ((c.min_vz : ℝ) + ((c.max_vz : ℝ) - (c.min_vz : ℝ)) *
        max 0 (1 - Real.sqrt (dx ^ 2 + dy ^ 2) / 100)))) ∧
    (∀ dx dy : ℝ, -c.max_vz ≤ ContinuousGlideLanding.compute_descent_speed c dx dy ∧
      ContinuousGlideLanding.compute_descent_speed c dx dy ≤ -c.min_vz) ∧
    (∀ dx₁ dy₁ dx₂ dy₂ : ℝ, dx₁ ^ 2 + dy₁ ^ 2 ≤ dx₂ ^ 2 + dy₂ ^ 2 →
      ContinuousGlideLanding.compute_descent_speed c dx₁ dy₁ ≤
        ContinuousGlideLanding.compute_descent_speed c dx₂ dy₂) ∧
    (ContinuousGlideLanding.compute_descent_speed c 0 0 = -c.max_vz) ∧
    (∀ dx dy : ℝ, (100 : ℝ) ^ 2 ≤ dx ^ 2 + dy ^ 2 →
      ContinuousGlideLanding.compute_descent_speed c dx dy = -c.min_vz) := by
  refine ⟨fun dx dy => rfl, ?_, ?_, ?_, ?_⟩
  · intro dx dy
    refine descentFromNormalised_bounds c hmin hle (le_max_left _ _) ?_
    have h1 : 1 - Real.sqrt (dx ^ 2 + dy ^ 2) / 100 ≤ 1 := by
      have := Real.sqrt_nonneg (dx ^ 2 + dy ^ 2)
      linarith
    exact max_le (by norm_num) h1
  · intro dx1 dy1 dx2 dy2 hmag
    apply descentFromNormalised_antitone c hle
    have hs : Real.sqrt (dx1 ^ 2 + dy1 ^ 2) ≤ Real.sqrt (dx2 ^ 2 + dy2 ^ 2) :=
      Real.sqrt_le_sqrt hmag
    exact max_le_max (le_refl 0) (by linarith)
  · show descentFromNormalised c (max 0 (1 - Real.sqrt ((0:ℝ) ^ 2 + 0 ^ 2) / 100)) = -c.max_vz
    rw [show ((0:ℝ) ^ 2 + 0 ^ 2) = 0 by norm_num, Real.sqrt_zero]
    rw [show max (0:ℝ) (1 - 0 / 100) = 1 by norm_num]
    exact descentFromNormalised_one c
  · intro dx dy hbig
    show descentFromNormalised c (max 0 (1 - Real.sqrt (dx ^ 2 + dy ^ 2) / 100)) = -c.min_vz
    have hsqrt : (100 : ℝ) ≤ Real.sqrt (dx ^ 2 + dy ^ 2) :=
      (Real.le_sqrt' (by norm_num)).mpr hbig
    rw [show max (0:ℝ) (1 - Real.sqrt (dx ^ 2 + dy ^ 2) / 100) = 0 from
      max_eq_left (by linarith)]
    exact descentFromNormalised_zero c

theorem C6_descent_speed_witness :
    (0 : ℤ) ≤ 10 ∧ (10 : ℤ) ≤ 25 ∧
    ContinuousGlideLanding.compute_descent_speed ⟨10, 25⟩ 150 150 = -10 := by
  refine ⟨by decide, by decide, ?_⟩
  have h := (C6_descent_speed ⟨10, 25⟩ (by decide) (by decide)).2.2.2.2 150 150 (by norm_num)
  simpa using h

/-- C7 counterexample: on a tick where a frame is available but the
tracker reports the target not found, the glide loop sends
`(0, 0, -min_vz, 0)`, not the all-zero hover command: with
`min_vz = 10, max_vz = 25` the command is `(0, 0, -10, 0)`. -/
theorem C7_hover_counterexample :
    glideTickCommand ⟨10, 25⟩ (fun _ _ => (0, 0, 0, 0)) false 0 0 = (0, 0, -10, 0) ∧
    glideTickCommand ⟨10, 25⟩ (fun _ _ => (0, 0, 0, 0)) false 0 0 ≠ (0, 0, 0, 0) := by
  have h : glideTickCommand ⟨10, 25⟩ (fun _ _ => (0, 0, 0, 0)) false 0 0 = (0, 0, -10, 0) := by
    show ((0 : ℤ), (0 : ℤ), descentFromNormalised ⟨10, 25⟩ 0, (0 : ℤ)) = (0, 0, -10, 0)
    rw [descentFromNormalised_zero]
  exact ⟨h, by rw [h]; decide⟩

/-- C7 amended: on a frame-available, target-not-found tick the glide
loop holds the horizontal and yaw axes at zero but keeps descending at
the minimum rate: the command sent is `(0, 0, -min_vz, 0)`
(`_compute_descent_speed((np.inf, np.inf))` evaluates to `-min_vz`). -/
theorem C7_lost_target_command (c : GlideCfg) (ctrl : ℝ → ℝ → ℤ × ℤ × ℤ × ℤ)
    (err_x err_y : ℝ) :
    glideTickCommand c ctrl false err_x err_y = (0, 0, -c.min_vz, 0) := by
  show ((0 : ℤ), (0 : ℤ), descentFromNormalised c 0, (0 : ℤ)) = (0, 0, -c.min_vz, 0)
  rw [descentFromNormalised_zero]

end DroneFollow
